import Mathlib

/-
Verification of the asynchronous operation bridge and command-assembly step
of the micro_sp_gui control panel.

The development embeds the result-composition, validation, selection
invalidation, and serialization logic of src/lookup.rs and src/robot.rs as
executable Lean definitions.  External collaborators (the backend connection,
the micro_sp library value types, the serde serializer) are represented at
their interfaces: a backend call is modelled by the response value it
eventually delivers, and a spawned promise by a record of the data the spawned
closure captured.  Floating-point values are never computed with by the GUI,
only copied between the backend, the form state and the serialized output, so
they are carried opaquely by their 64-bit patterns.
-/

namespace MicroSpGui

/-- An IEEE-754 binary64 value carried by its bit pattern (a natural number
below 2 to the 64).  The GUI never performs float arithmetic; it only moves
f64 values around, so the bit pattern is the faithful observable and equality
of F64 values is bit-for-bit equality. -/
structure F64 where
  bits : Nat
deriving DecidableEq, Repr

/-- The bit pattern of positive zero, the value 0.0 that the code substitutes
for a missing or ill-typed position reading. -/
def F64.zero : F64 := ⟨0⟩

/-- micro_sp FloatOrUnknown, as consumed by this GUI.  The source constructor
wraps an OrderedFloat, which wraps the raw f64. -/
inductive FloatOrUnknown where
  | Float64 (x : F64)
  | UNKNOWN
deriving DecidableEq, Repr

/-- micro_sp BoolOrUnknown. -/
inductive BoolOrUnknown where
  | Bool (b : Bool)
  | UNKNOWN
deriving DecidableEq, Repr

/-- micro_sp StringOrUnknown. -/
inductive StringOrUnknown where
  | String (s : String)
  | UNKNOWN
deriving DecidableEq, Repr

/-- micro_sp SPValue, restricted to the variants this GUI constructs or
inspects.  The source nests ArrayOrUnknown inside the Array variant; here the
two array constructors are inlined (Array for ArrayOrUnknown.Array, and
ArrayUNKNOWN for ArrayOrUnknown.UNKNOWN) to keep the inductive non-mutual. -/
inductive SPValue where
  | Bool (b : BoolOrUnknown)
  | Float64 (x : FloatOrUnknown)
  | String (s : StringOrUnknown)
  | Array (xs : List SPValue)
  | ArrayUNKNOWN

/-- The to_spvalue conversion for f64 values: wraps the float in
SPValue.Float64 (FloatOrUnknown.Float64 (OrderedFloat x)). -/
def F64.to_spvalue (x : F64) : SPValue :=
  SPValue.Float64 (FloatOrUnknown.Float64 x)

/-- Modelled on the spec data model TransformRecord: a translation vector of
three f64 components.  The concrete type lives in the external micro_sp crate;
the GUI copies it wholesale between lookup results and the export document. -/
structure SPVector3 where
  x : F64
  y : F64
  z : F64
deriving DecidableEq, Repr

/-- Modelled on the spec data model TransformRecord: a rotation quaternion of
four f64 components. -/
structure SPQuaternion where
  x : F64
  y : F64
  z : F64
  w : F64
deriving DecidableEq, Repr

/-- micro_sp SPTransform: translation plus rotation.  The GUI treats it as an
opaque record copied from the lookup result into the export document. -/
structure SPTransform where
  translation : SPVector3
  rotation : SPQuaternion
deriving DecidableEq, Repr

/-- micro_sp SPTransformStamped.  The GUI reads only its transform field
(data.transform.transform in the source), so only that field is modelled. -/
structure SPTransformStamped where
  transform : SPTransform
deriving DecidableEq, Repr

/-- micro_sp State as this GUI uses it: a patch built by successive add calls
and handed to StateManager.set_state as one write.  The observable behaviour
of the builder is the ordered list of added (key, value) assignments. -/
structure State where
  entries : List (String × SPValue)

/-- An empty patch (State::new in the source). -/
def State.new : State := ⟨[]⟩

/-- Adding one assignment to a patch (state.add(assign!(var, value))). -/
def State.add (s : State) (key : String) (val : SPValue) : State :=
  ⟨s.entries ++ [(key, val)]⟩

/-- Looking up the value stored in a patch under a key (first match wins). -/
def State.get (s : State) (key : String) : Option SPValue :=
  (s.entries.find? (fun p => p.fst == key)).map Prod.snd

/-- Byte-lexicographic comparison of char sequences, the order Rust uses to
sort a Vec of Strings: UTF-8 byte order coincides with code-point order. -/
def lexLe : List Char → List Char → Bool
  | [], _ => true
  | _ :: _, [] => false
  | a :: as, b :: bs =>
    if a.val.toNat < b.val.toNat then true
    else if b.val.toNat < a.val.toNat then false
    else lexLe as bs

/-- The string order underlying Vec of String sort_unstable in the source. -/
def strLe (a b : String) : Prop := lexLe a.data b.data = true

instance : DecidableRel strLe :=
  fun a b => instDecidableEqBool (lexLe a.data b.data) true

/-- keys.sort_unstable() from process_transforms_result: sorting the fetched
identifier list ascending.  sort_unstable is some comparison sort; since the
order is total and antisymmetric, every sorted permutation of a given key
multiset is the same list, so insertion sort is an exact model. -/
def sort_unstable (keys : List String) : List String :=
  List.insertionSort strLe keys

/-- The outcomes of the three backend reads that one lookup operation issues
concurrently and awaits together (the tokio join in get_lookup_data):
the result of the local lookup_transform helper, and the raw optional SPValue
answers of the two StateManager get_sp_value reads (the joint-states key of
the chosen robot, and the opc_current_position key). -/
structure BackendResponses where
  transform_res : Except String SPTransformStamped
  joints_res : Option SPValue
  gantry_res : Option SPValue

/-- get_joint_states from src/lookup.rs, applied to the value the backend
returned for the robot joint-states key: a missing value or a non-array value
yields the empty sequence, and every array element that is not a concrete
float is read as 0.0. -/
def get_joint_states (joints_res : Option SPValue) : List F64 :=
  match joints_res with
  | some (SPValue.Array joint_states_of_sp_value) =>
    joint_states_of_sp_value.map fun j =>
      match j with
      | SPValue.Float64 (FloatOrUnknown.Float64 joint_value) => joint_value
      | _ => F64.zero
  | some _ => []
  | none => []

/-- get_opc_current_position from src/lookup.rs, applied to the value the
backend returned for the opc_current_position key: a missing value or a
non-float value is read as 0.0. -/
def get_opc_current_position (gantry_res : Option SPValue) : F64 :=
  match gantry_res with
  | some (SPValue.Float64 (FloatOrUnknown.Float64 x)) => x
  | some _ => F64.zero
  | none => F64.zero

/-- The joined result of one lookup operation (struct LookupData). -/
structure LookupData where
  transform : SPTransformStamped
  joint_states : List F64
  gantry_position : F64

/-- get_lookup_data from src/lookup.rs: joins the three backend reads.  The
transform result decides success; the telemetry reads are folded in through
their defaulting readers. -/
def get_lookup_data (resp : BackendResponses) : Except String LookupData :=
  match resp.transform_res with
  | Except.ok transform =>
    Except.ok
      { transform := transform
        joint_states := get_joint_states resp.joints_res
        gantry_position := get_opc_current_position resp.gantry_res }
  | Except.error e => Except.error e

/-- vec_to_joint_map from src/lookup.rs: the synthetic joint-name mapping,
pairing the name j followed by the index with the joint value, in array
order.  The source collects the pairs into a HashMap; the mapping content is
the association list in index order. -/
def vec_to_joint_map (joints : List F64) : List (String × F64) :=
  joints.enum.map fun p => ("j" ++ toString p.fst, p.snd)

/-- struct Metadata of the export document (src/lookup.rs). -/
structure Metadata where
  tcp_id : String
  preferred_joint_configuration : List (String × F64)
  enable_transform : Bool
  active_transform : Bool
  gantry : F64

/-- struct JsonOutputWithMetadata, the export document (src/lookup.rs). -/
structure JsonOutputWithMetadata where
  child_frame_id : String
  parent_frame_id : String
  transform : SPTransform
  metadata : Metadata

/-- A JSON document tree.  Serialization in the source goes through serde to
a pretty-printed string; the tree is the document content that the string
renders, with numbers carried as exact f64 bit patterns (the serde_json
shortest-representation printer round-trips every finite f64 exactly). -/
inductive Json where
  | str (s : String)
  | num (x : F64)
  | bool (b : Bool)
  | arr (xs : List Json)
  | obj (fields : List (String × Json))

/-- Serde serialization of the translation vector: a struct serializes as an
object with one member per field, in declaration order. -/
def SPVector3.toJson (v : SPVector3) : Json :=
  Json.obj [("x", Json.num v.x), ("y", Json.num v.y), ("z", Json.num v.z)]

/-- Serde serialization of the rotation quaternion. -/
def SPQuaternion.toJson (q : SPQuaternion) : Json :=
  Json.obj
    [("x", Json.num q.x), ("y", Json.num q.y), ("z", Json.num q.z),
     ("w", Json.num q.w)]

/-- Serde serialization of an SPTransform. -/
def SPTransform.toJson (t : SPTransform) : Json :=
  Json.obj
    [("translation", t.translation.toJson), ("rotation", t.rotation.toJson)]

/-- Serde serialization of the Metadata block.  The newtype wrapper
PreferredJointConfiguration serializes as its inner map, an object with one
member per joint-name entry. -/
def Metadata.toJson (m : Metadata) : Json :=
  Json.obj
    [("tcp_id", Json.str m.tcp_id),
     ("preferred_joint_configuration",
        Json.obj (m.preferred_joint_configuration.map
          fun p => (p.fst, Json.num p.snd))),
     ("enable_transform", Json.bool m.enable_transform),
     ("active_transform", Json.bool m.active_transform),
     ("gantry", Json.num m.gantry)]

/-- Serde serialization of the whole export document. -/
def JsonOutputWithMetadata.toJson (o : JsonOutputWithMetadata) : Json :=
  Json.obj
    [("child_frame_id", Json.str o.child_frame_id),
     ("parent_frame_id", Json.str o.parent_frame_id),
     ("transform", o.transform.toJson),
     ("metadata", o.metadata.toJson)]

/-- Reading a member of a JSON object by name (first match wins; the export
document never repeats a name). -/
def Json.getField (j : Json) (key : String) : Option Json :=
  match j with
  | Json.obj fields => (fields.find? (fun p => p.fst == key)).map Prod.snd
  | _ => none

/-- Reading a JSON string leaf. -/
def Json.asStr : Json → Option String
  | Json.str s => some s
  | _ => none

/-- Reading a JSON number leaf. -/
def Json.asNum : Json → Option F64
  | Json.num x => some x
  | _ => none

/-- Parsing a translation vector back out of its JSON object. -/
def parseVector3 (j : Json) : Option SPVector3 := do
  let x ← (← j.getField "x").asNum
  let y ← (← j.getField "y").asNum
  let z ← (← j.getField "z").asNum
  pure { x := x, y := y, z := z }

/-- Parsing a rotation quaternion back out of its JSON object. -/
def parseQuaternion (j : Json) : Option SPQuaternion := do
  let x ← (← j.getField "x").asNum
  let y ← (← j.getField "y").asNum
  let z ← (← j.getField "z").asNum
  let w ← (← j.getField "w").asNum
  pure { x := x, y := y, z := z, w := w }

/-- Parsing an SPTransform back out of its JSON object. -/
def parseTransform (j : Json) : Option SPTransform := do
  let translation ← parseVector3 (← j.getField "translation")
  let rotation ← parseQuaternion (← j.getField "rotation")
  pure { translation := translation, rotation := rotation }

/-- Re-parsing an export document: recovers the parent frame id, the child
frame id, and the transform numeric fields. -/
def parseLookupExport (j : Json) : Option (String × String × SPTransform) := do
  let child ← (← j.getField "child_frame_id").asStr
  let parent ← (← j.getField "parent_frame_id").asStr
  let transform ← parseTransform (← j.getField "transform")
  pure (parent, child, transform)

/-- The data captured by the closure of a spawned lookup computation: the
robot id text and the two selected frames at spawn time. -/
structure LookupPending where
  robot_id : String
  parent : String
  child : String

/-- What one non-blocking poll of a promise observes: the computation is
still running, or it has finished with its value. -/
inductive PollOutcome (α : Type) where
  | pending
  | ready (a : α)

/-- The LookupTab state (src/lookup.rs).  The transform-fetch promise slot
carries no distinguishing data (its closure captures only the shared
connection handle); the lookup promise slot carries the captured inputs. -/
structure LookupTab where
  robot_id_input : String
  get_all_transforms_promise : Option Unit
  transform_keys : List String
  parent : Option String
  child : Option String
  lookup_promise : Option LookupPending
  lookup_output : Option (JsonOutputWithMetadata × String)
  lookup_error : Option String

/-- LookupTab::new. -/
def LookupTab.new : LookupTab :=
  { robot_id_input := "r1"
    get_all_transforms_promise := none
    transform_keys := []
    parent := none
    child := none
    lookup_promise := none
    lookup_output := none
    lookup_error := none }

/-- LookupTab::spawn_lookup_promise: clears the previous output and error,
then, if a parent and a child are selected, installs a new pending lookup
capturing the current robot id and selections. -/
def LookupTab.spawn_lookup_promise (tab : LookupTab) : LookupTab :=
  let tab := { tab with lookup_output := none, lookup_error := none }
  match tab.parent, tab.child with
  | some parent, some child =>
    { tab with
        lookup_promise :=
          some { robot_id := tab.robot_id_input, parent := parent, child := child } }
  | _, _ => tab

/-- The export document built inside LookupTab::poll_lookup_promise from a
successful lookup result and the selections at poll time. -/
def LookupTab.mk_lookup_output (tab : LookupTab) (data : LookupData) :
    JsonOutputWithMetadata :=
  let child_frame_id := tab.child.getD ""
  { child_frame_id := child_frame_id
    parent_frame_id := tab.parent.getD ""
    transform := data.transform.transform
    metadata :=
      { tcp_id := child_frame_id
        preferred_joint_configuration := vec_to_joint_map data.joint_states
        enable_transform := true
        active_transform := false
        gantry := data.gantry_position } }

/-- The environment input to one poll of the lookup promise: either the
computation is still running, or it is ready with its LookupResult together
with the outcome of the external serde pretty-printer on the built export
document. -/
inductive LookupPollInput where
  | pending
  | ready (res : Except String LookupData) (ser : Except String String)

/-- LookupTab::poll_lookup_promise: a no-op unless a promise is installed and
ready; a ready result sets the output on success (or the serialization error
text when the pretty-printer fails), sets the error text on lookup failure,
and in either case clears the promise slot. -/
def LookupTab.poll_lookup_promise (tab : LookupTab) (input : LookupPollInput) :
    LookupTab :=
  match tab.lookup_promise with
  | none => tab
  | some _ =>
    match input with
    | LookupPollInput.pending => tab
    | LookupPollInput.ready res ser =>
      let tab :=
        match res with
        | Except.ok data =>
          let output := tab.mk_lookup_output data
          match ser with
          | Except.ok json_string =>
            { tab with lookup_output := some (output, json_string) }
          | Except.error e =>
            { tab with lookup_error := some ("JSON serialization error: " ++ e) }
        | Except.error err => { tab with lookup_error := some err }
      { tab with lookup_promise := none }

/-- LookupTab::process_transforms_result: store the sorted key list of the
fetched transform set, then drop the parent and child selections when they
are no longer present in it. -/
def LookupTab.process_transforms_result (tab : LookupTab)
    (result : List (String × SPTransformStamped)) : LookupTab :=
  let keys := sort_unstable (result.map Prod.fst)
  { tab with
      transform_keys := keys
      parent :=
        match tab.parent with
        | some parent => if keys.contains parent then some parent else none
        | none => none
      child :=
        match tab.child with
        | some child => if keys.contains child then some child else none
        | none => none }

/-- One redraw frame of the transform-fetch control in LookupTab::ui: the
promise is polled first (a ready result is consumed and the slot cleared; a
still-running one is put back), and the fetch button only spawns when the
poll did not report a fetch in progress.  Returns the new tab state and
whether a new computation was spawned this frame. -/
def LookupTab.fetch_frame (tab : LookupTab)
    (outcome : PollOutcome (List (String × SPTransformStamped)))
    (clicked : Bool) : LookupTab × Bool :=
  match tab.get_all_transforms_promise with
  | none =>
    if clicked then ({ tab with get_all_transforms_promise := some () }, true)
    else (tab, false)
  | some _ =>
    match outcome with
    | PollOutcome.pending => (tab, false)
    | PollOutcome.ready result =>
      let tab :=
        { tab.process_transforms_result result with
            get_all_transforms_promise := none }
      if clicked then ({ tab with get_all_transforms_promise := some () }, true)
      else (tab, false)

/-- The lookup button in LookupTab::ui: enabled only when a parent and a
child are selected and no lookup is loading (both read before the click is
handled); a click on the enabled button spawns the lookup.  Returns the new
tab state and whether a new computation was spawned. -/
def LookupTab.lookup_click (tab : LookupTab) (clicked : Bool) :
    LookupTab × Bool :=
  let both_selected := tab.parent.isSome && tab.child.isSome
  let is_loading_lookup := tab.lookup_promise.isSome
  if both_selected && !is_loading_lookup && clicked then
    (tab.spawn_lookup_promise, true)
  else (tab, false)

/-- One call of the lookup slot interface named by the source: spawning a new
lookup, or polling the installed one with the environment-decided outcome. -/
inductive LookupOp where
  | spawn
  | poll (input : LookupPollInput)

/-- Applying one lookup-slot call to the tab state. -/
def LookupTab.apply_op (tab : LookupTab) : LookupOp → LookupTab
  | LookupOp.spawn => tab.spawn_lookup_promise
  | LookupOp.poll input => tab.poll_lookup_promise input

/-- Running a sequence of lookup-slot calls from a tab state. -/
def LookupTab.run_ops (tab : LookupTab) : List LookupOp → LookupTab
  | [] => tab
  | op :: ops => (tab.apply_op op).run_ops ops

/-- enum SavedPayload (src/robot.rs). -/
inductive SavedPayload where
  | Gripper
  | Svt
  | Bvt
  | Photoneo
  | Sponge
  | None
deriving DecidableEq, Repr

/-- The Display string table of SavedPayload: the fixed wire string of each
variant. -/
def SavedPayload.fmt : SavedPayload → String
  | SavedPayload.Gripper => "gripper"
  | SavedPayload.Svt => "svt"
  | SavedPayload.Bvt => "bvt"
  | SavedPayload.Photoneo => "photoneo"
  | SavedPayload.Sponge => "sponge"
  | SavedPayload.None => "none"

/-- enum CommandType (src/robot.rs). -/
inductive CommandType where
  | UnsafeMoveL
  | UnsafeMoveJ
  | SafeMoveL
  | SafeMoveJ
  | PickVacuum
  | PlaceVacuum
deriving DecidableEq, Repr

/-- The Display string table of CommandType: the fixed wire string of each
variant. -/
def CommandType.fmt : CommandType → String
  | CommandType.UnsafeMoveL => "unsafe_move_l"
  | CommandType.UnsafeMoveJ => "unsafe_move_j"
  | CommandType.SafeMoveL => "safe_move_l"
  | CommandType.SafeMoveJ => "safe_move_j"
  | CommandType.PickVacuum => "pick_vacuum"
  | CommandType.PlaceVacuum => "place_vacuum"

/-- struct Payload, the manual payload configuration (src/robot.rs). -/
structure Payload where
  mass : F64
  cog_x : F64
  cog_y : F64
  cog_z : F64
  ixx : F64
  iyy : F64
  izz : F64
  ixy : F64
  ixz : F64
  iyz : F64
deriving DecidableEq, Repr

/-- Payload::default: all components zero. -/
def Payload.default : Payload :=
  { mass := F64.zero, cog_x := F64.zero, cog_y := F64.zero, cog_z := F64.zero
    ixx := F64.zero, iyy := F64.zero, izz := F64.zero
    ixy := F64.zero, ixz := F64.zero, iyz := F64.zero }

/-- The data captured by the closure of a spawned send-command computation:
the state patch that send_robot_command will write. -/
structure SendPending where
  state : State

/-- The RobotTab state (src/robot.rs).  The three f64 arrays of length six
are functions out of Fin 6, read in index order. -/
structure RobotTab where
  robot_id_input : String
  get_all_transforms_promise : Option Unit
  robot_control_promise : Option SendPending
  transform_keys : List String
  selected_goal_feature_id : Option String
  tcp_keys : List String
  selected_tcp : Option String
  selected_faceplate : Option String
  selected_baseframe : Option String
  command_type : CommandType
  acceleration : F64
  velocity : F64
  global_acceleration_scaling : F64
  global_velocity_scaling : F64
  use_blend_radius : Bool
  blend_radius : F64
  use_joint_positions : Bool
  set_manual_joint_positions : Bool
  joint_positions : Fin 6 → F64
  use_preferred_joint_config : Bool
  preferred_joint_config : Fin 6 → F64
  set_manual_joint_config : Bool
  use_payload : Bool
  set_manual_payload : Bool
  saved_payload : SavedPayload
  manual_payload : Payload
  use_execution_time : Bool
  execution_time_s : F64
  force_threshold : F64
  use_relative_pose : Bool
  relative_pose : Fin 6 → F64

/-- RobotTab::new.  The numeric literals of the source are carried as
unspecified but fixed bit patterns; their values never influence control
flow. -/
def RobotTab.new : RobotTab :=
  { robot_id_input := "r1"
    get_all_transforms_promise := none
    robot_control_promise := none
    transform_keys := []
    selected_goal_feature_id := none
    tcp_keys := []
    selected_tcp := none
    selected_faceplate := some "tool0"
    selected_baseframe := some "base_link"
    command_type := CommandType.UnsafeMoveL
    acceleration := ⟨1⟩
    velocity := ⟨1⟩
    global_acceleration_scaling := ⟨2⟩
    global_velocity_scaling := ⟨2⟩
    use_blend_radius := false
    blend_radius := F64.zero
    use_joint_positions := false
    set_manual_joint_positions := false
    joint_positions := fun _ => F64.zero
    use_preferred_joint_config := false
    preferred_joint_config := fun _ => F64.zero
    set_manual_joint_config := false
    use_payload := false
    set_manual_payload := false
    saved_payload := SavedPayload.None
    manual_payload := Payload.default
    use_execution_time := false
    execution_time_s := F64.zero
    force_threshold := ⟨3⟩
    use_relative_pose := false
    relative_pose := fun _ => F64.zero }

/-- RobotTab::process_transforms_result: store the sorted key list, then drop
only the goal-feature selection when it is no longer present.  The tcp,
faceplate and baseframe selections are not inspected here. -/
def RobotTab.process_transforms_result (tab : RobotTab)
    (result : List (String × SPTransformStamped)) : RobotTab :=
  let keys := sort_unstable (result.map Prod.fst)
  { tab with
      transform_keys := keys
      selected_goal_feature_id :=
        match tab.selected_goal_feature_id with
        | some pose => if keys.contains pose then some pose else none
        | none => none }

/-- One redraw frame of the transform-fetch control in RobotTab::ui, built
exactly like the LookupTab one: poll first, then spawn only when no fetch is
in progress. -/
def RobotTab.fetch_frame (tab : RobotTab)
    (outcome : PollOutcome (List (String × SPTransformStamped)))
    (clicked : Bool) : RobotTab × Bool :=
  match tab.get_all_transforms_promise with
  | none =>
    if clicked then ({ tab with get_all_transforms_promise := some () }, true)
    else (tab, false)
  | some _ =>
    match outcome with
    | PollOutcome.pending => (tab, false)
    | PollOutcome.ready result =>
      let tab :=
        { tab.process_transforms_result result with
            get_all_transforms_promise := none }
      if clicked then ({ tab with get_all_transforms_promise := some () }, true)
      else (tab, false)

/-- robot_command_tab_to_state (src/robot.rs): maps the RobotTab snapshot
into one state patch, or fails on the first missing mandatory selection, in
the order baseframe, faceplate, goal feature, tcp. -/
def robot_command_tab_to_state (tab : RobotTab) : Except String State :=
  let robot_name := tab.robot_id_input
  let state := State.new
  let state := state.add (robot_name ++ "_request_trigger")
    (SPValue.Bool (BoolOrUnknown.Bool true))
  let state := state.add (robot_name ++ "_command_type")
    (SPValue.String (StringOrUnknown.String tab.command_type.fmt))
  let state := state.add (robot_name ++ "_accelleration")
    tab.acceleration.to_spvalue
  let state := state.add (robot_name ++ "_velocity") tab.velocity.to_spvalue
  let state := state.add (robot_name ++ "_use_execution_time")
    (SPValue.Bool (BoolOrUnknown.Bool tab.use_execution_time))
  let state := state.add (robot_name ++ "_execution_time")
    tab.execution_time_s.to_spvalue
  let state := state.add (robot_name ++ "_use_blend_radius")
    (SPValue.Bool (BoolOrUnknown.Bool tab.use_blend_radius))
  let state := state.add (robot_name ++ "_blend_radius")
    tab.blend_radius.to_spvalue
  let state := state.add (robot_name ++ "_use_joint_positions")
    (SPValue.Bool (BoolOrUnknown.Bool tab.use_joint_positions))
  let state := state.add (robot_name ++ "_joint_positions")
    (SPValue.Array ((List.ofFn tab.joint_positions).map F64.to_spvalue))
  let state := state.add (robot_name ++ "_use_preferred_joint_config")
    (SPValue.Bool (BoolOrUnknown.Bool tab.use_preferred_joint_config))
  let state := state.add (robot_name ++ "_preferred_joint_config")
    (SPValue.Array ((List.ofFn tab.preferred_joint_config).map F64.to_spvalue))
  let state := state.add (robot_name ++ "_use_payload")
    (SPValue.Bool (BoolOrUnknown.Bool tab.use_payload))
  let state := state.add (robot_name ++ "_payload")
    (SPValue.String (StringOrUnknown.String tab.saved_payload.fmt))
  match tab.selected_baseframe with
  | none => Except.error "Baseframe not selected"
  | some baseframe =>
    let state := state.add (robot_name ++ "_baseframe_id")
      (SPValue.String (StringOrUnknown.String baseframe))
    match tab.selected_faceplate with
    | none => Except.error "Faceplate not selected"
    | some faceplate =>
      let state := state.add (robot_name ++ "_faceplate_id")
        (SPValue.String (StringOrUnknown.String faceplate))
      match tab.selected_goal_feature_id with
      | none => Except.error "Goal feature not selected"
      | some goal_feature =>
        let state := state.add (robot_name ++ "_goal_feature_id")
          (SPValue.String (StringOrUnknown.String goal_feature))
        match tab.selected_tcp with
        | none => Except.error "Tcp not selected"
        | some tcp =>
          let state := state.add (robot_name ++ "_tcp_id")
            (SPValue.String (StringOrUnknown.String tcp))
          let state := state.add (robot_name ++ "_root_frame_id")
            (SPValue.String (StringOrUnknown.String "world"))
          let state := state.add (robot_name ++ "_force_threshold")
            tab.force_threshold.to_spvalue
          let state := state.add (robot_name ++ "_use_relative_pose")
            (SPValue.Bool (BoolOrUnknown.Bool tab.use_relative_pose))
          let state := state.add (robot_name ++ "_relative_pose")
            (SPValue.Array ((List.ofFn tab.relative_pose).map F64.to_spvalue))
          Except.ok state

/-- RobotTab::spawn_robot_control_promise: builds the patch and, on success,
installs a new pending send capturing it, with no check of the current slot;
on build failure nothing happens.  Returns the new tab state and whether a
new computation was spawned. -/
def RobotTab.spawn_robot_control_promise (tab : RobotTab) : RobotTab × Bool :=
  match robot_command_tab_to_state tab with
  | Except.ok state =>
    ({ tab with robot_control_promise := some { state := state } }, true)
  | Except.error _ => (tab, false)

/-- The Send Command button in RobotTab::ui: always enabled; a click calls
spawn_robot_control_promise unconditionally. -/
def RobotTab.send_command_click (tab : RobotTab) (clicked : Bool) :
    RobotTab × Bool :=
  if clicked then tab.spawn_robot_control_promise else (tab, false)

/-- The field-name suffixes of the command patch, one per serialized field,
in the order the builder adds them. -/
def commandPatchFieldKeys : List String :=
  ["_request_trigger", "_command_type", "_accelleration", "_velocity",
   "_use_execution_time", "_execution_time", "_use_blend_radius",
   "_blend_radius", "_use_joint_positions", "_joint_positions",
   "_use_preferred_joint_config", "_preferred_joint_config", "_use_payload",
   "_payload", "_baseframe_id", "_faceplate_id", "_goal_feature_id",
   "_tcp_id", "_root_frame_id", "_force_threshold", "_use_relative_pose",
   "_relative_pose"]

/-- The full backend key list of a built command patch: every key is the
robot id followed by one field-name suffix, per the spec mapping rule. -/
def commandPatchKeys (robot_name : String) : List String :=
  commandPatchFieldKeys.map (fun suffix => robot_name ++ suffix)

/-- The patch content the spec mapping rule describes for a successful build:
exactly one namespaced entry per serialized field, the three length-six
arrays in declared index order, and the enumerated fields through their
Display string tables.  Stated independently of the builder so the builder
can be proved to refine it. -/
def specCommandPatch (tab : RobotTab) (baseframe faceplate goal_feature tcp : String) :
    List (String × SPValue) :=
  let r := tab.robot_id_input
  [(r ++ "_request_trigger", SPValue.Bool (BoolOrUnknown.Bool true)),
   (r ++ "_command_type",
      SPValue.String (StringOrUnknown.String tab.command_type.fmt)),
   (r ++ "_accelleration", tab.acceleration.to_spvalue),
   (r ++ "_velocity", tab.velocity.to_spvalue),
   (r ++ "_use_execution_time",
      SPValue.Bool (BoolOrUnknown.Bool tab.use_execution_time)),
   (r ++ "_execution_time", tab.execution_time_s.to_spvalue),
   (r ++ "_use_blend_radius",
      SPValue.Bool (BoolOrUnknown.Bool tab.use_blend_radius)),
   (r ++ "_blend_radius", tab.blend_radius.to_spvalue),
   (r ++ "_use_joint_positions",
      SPValue.Bool (BoolOrUnknown.Bool tab.use_joint_positions)),
   (r ++ "_joint_positions",
      SPValue.Array ((List.ofFn tab.joint_positions).map F64.to_spvalue)),
   (r ++ "_use_preferred_joint_config",
      SPValue.Bool (BoolOrUnknown.Bool tab.use_preferred_joint_config)),
   (r ++ "_preferred_joint_config",
      SPValue.Array ((List.ofFn tab.preferred_joint_config).map F64.to_spvalue)),
   (r ++ "_use_payload", SPValue.Bool (BoolOrUnknown.Bool tab.use_payload)),
   (r ++ "_payload",
      SPValue.String (StringOrUnknown.String tab.saved_payload.fmt)),
   (r ++ "_baseframe_id", SPValue.String (StringOrUnknown.String baseframe)),
   (r ++ "_faceplate_id", SPValue.String (StringOrUnknown.String faceplate)),
   (r ++ "_goal_feature_id",
      SPValue.String (StringOrUnknown.String goal_feature)),
   (r ++ "_tcp_id", SPValue.String (StringOrUnknown.String tcp)),
   (r ++ "_root_frame_id", SPValue.String (StringOrUnknown.String "world")),
   (r ++ "_force_threshold", tab.force_threshold.to_spvalue),
   (r ++ "_use_relative_pose",
      SPValue.Bool (BoolOrUnknown.Bool tab.use_relative_pose)),
   (r ++ "_relative_pose",
      SPValue.Array ((List.ofFn tab.relative_pose).map F64.to_spvalue))]

/-- The lookup-slot well-formedness the poll and spawn transitions maintain:
while a lookup is in flight both display fields are clear, and at most one of
the output and the error text is ever present. -/
def lookup_wf (tab : LookupTab) : Prop :=
  (tab.lookup_promise.isSome = true →
      tab.lookup_output = none ∧ tab.lookup_error = none) ∧
  (tab.lookup_output = none ∨ tab.lookup_error = none)

/-- A transform record with all numeric components zero, used as a concrete
backend answer in example runs. -/
def stamped0 : SPTransformStamped :=
  { transform :=
      { translation := { x := F64.zero, y := F64.zero, z := F64.zero }
        rotation := { x := F64.zero, y := F64.zero, z := F64.zero, w := F64.zero } } }

/-- A RobotTab snapshot with all four mandatory selections set (the faceplate
and baseframe defaults of new, a chosen goal feature, and a chosen tcp). -/
def robotTabReady : RobotTab :=
  { RobotTab.new with
      selected_goal_feature_id := some "goal"
      selected_tcp := some "tcp" }

/-- The patch that building from robotTabReady produces. -/
def robotTabReadyPatch : State :=
  ⟨specCommandPatch robotTabReady "base_link" "tool0" "goal" "tcp"⟩

/-- robotTabReady with a send already in flight: the send slot holds a
pending computation that captured an empty patch. -/
def robotTabPendingSend : RobotTab :=
  { robotTabReady with robot_control_promise := some { state := State.new } }

/-- A RobotTab snapshot whose tcp selection is missing (all other mandatory
selections set). -/
def robotTabNoTcp : RobotTab :=
  { RobotTab.new with selected_goal_feature_id := some "goal" }

/-- A RobotTab snapshot whose baseframe selection is missing. -/
def robotTabNoBase : RobotTab :=
  { robotTabReady with selected_baseframe := none }

/-- A RobotTab snapshot with a tcp selected that no fetched transform set
will contain. -/
def robotTabGhostTcp : RobotTab :=
  { RobotTab.new with selected_tcp := some "ghost" }

/-- A RobotTab with a transform fetch in flight. -/
def robotTabPendingFetch : RobotTab :=
  { RobotTab.new with get_all_transforms_promise := some () }

/-- A LookupTab with a transform fetch in flight. -/
def lookupTabPendingFetch : LookupTab :=
  { LookupTab.new with get_all_transforms_promise := some () }

/-- A LookupTab with both frames selected and a lookup in flight. -/
def lookupTabPending : LookupTab :=
  { LookupTab.new with
      parent := some "world"
      child := some "tool0"
      lookup_promise := some { robot_id := "r1", parent := "world", child := "tool0" } }

/-- The scenario tab of the spec: parent world, child tool0 selected. -/
def lookupTabScenario : LookupTab :=
  { LookupTab.new with parent := some "world", child := some "tool0" }

/-- The byte-lexicographic comparison is total. -/
theorem lexLe_total : ∀ (a b : List Char), lexLe a b = true ∨ lexLe b a = true
  | [], _ => Or.inl rfl
  | _ :: _, [] => Or.inr rfl
  | a :: as, b :: bs => by
    simp only [lexLe]
    rcases Nat.lt_trichotomy a.val.toNat b.val.toNat with h | h | h
    · simp [h]
    · simp only [h, Nat.lt_irrefl, if_false]
      exact lexLe_total as bs
    · simp [h, Nat.lt_asymm h]

/-- The byte-lexicographic comparison is transitive. -/
theorem lexLe_trans : ∀ {a b c : List Char},
    lexLe a b = true → lexLe b c = true → lexLe a c = true
  | [], _, _, _, _ => rfl
  | _ :: _, [], _, h, _ => by simp [lexLe] at h
  | _ :: _, _ :: _, [], _, h => by simp [lexLe] at h
  | a :: as, b :: bs, c :: cs, h1, h2 => by
    simp only [lexLe] at h1 h2 ⊢
    rcases Nat.lt_trichotomy a.val.toNat b.val.toNat with hab | hab | hab <;>
      rcases Nat.lt_trichotomy b.val.toNat c.val.toNat with hbc | hbc | hbc <;>
      simp_all [Nat.lt_irrefl, Nat.lt_asymm] <;>
      first
        | exact Nat.lt_trans hab hbc
        | omega
        | exact lexLe_trans h1 h2

/-- The sorted key list is sorted with respect to the byte order. -/
theorem sort_unstable_sorted (l : List String) :
    List.Sorted strLe (sort_unstable l) :=
  @List.sorted_insertionSort String strLe _
    ⟨fun a b => lexLe_total a.data b.data⟩
    ⟨fun _ _ _ hab hbc => lexLe_trans hab hbc⟩ l

/-- Sorting permutes the key list. -/
theorem sort_unstable_perm (l : List String) :
    List.Perm (sort_unstable l) l :=
  List.perm_insertionSort strLe l

/-- Sorting a duplicate-free key list keeps it duplicate-free. -/
theorem sort_unstable_nodup {l : List String} (h : l.Nodup) :
    (sort_unstable l).Nodup :=
  ((sort_unstable_perm l).nodup_iff).mpr h

/-- Appending on the left of a string is injective. -/
theorem string_append_left_cancel {r a b : String} (h : r ++ a = r ++ b) :
    a = b := by
  have h2 := congrArg String.data h
  simp only [String.data_append] at h2
  exact String.ext (List.append_cancel_left h2)

/-- The command-patch key list never repeats a key, for any robot id. -/
theorem commandPatchKeys_nodup (r : String) : (commandPatchKeys r).Nodup := by
  have hinj : Function.Injective (fun suffix => r ++ suffix) := by
    intro a b h
    exact string_append_left_cancel h
  have hfields : commandPatchFieldKeys.Nodup := by decide
  exact hfields.map hinj

/-- Each lookup-slot call preserves the lookup-slot well-formedness. -/
theorem lookup_wf_apply (tab : LookupTab) (op : LookupOp) (h : lookup_wf tab) :
    lookup_wf (tab.apply_op op) := by
  cases op with
  | spawn =>
    unfold LookupTab.apply_op LookupTab.spawn_lookup_promise
    rcases hp : tab.parent with _ | p <;> rcases hc : tab.child with _ | c <;>
      simp [lookup_wf, hp, hc]
  | poll input =>
    unfold LookupTab.apply_op LookupTab.poll_lookup_promise
    rcases hpr : tab.lookup_promise with _ | pend
    · simpa [hpr] using h
    · have hcl := h.1 (by simp [hpr])
      cases input with
      | pending => simpa [hpr] using h
      | ready res ser =>
        cases res with
        | ok data =>
          cases ser with
          | ok json_string => simp [lookup_wf, hcl.2]
          | error e => simp [lookup_wf, hcl.1]
        | error err => simp [lookup_wf, hcl.1]

/-- Any sequence of lookup-slot calls preserves the well-formedness. -/
theorem lookup_wf_run (tab : LookupTab) (ops : List LookupOp)
    (h : lookup_wf tab) : lookup_wf (tab.run_ops ops) := by
  induction ops generalizing tab with
  | nil => exact h
  | cons op ops ih => exact ih _ (lookup_wf_apply tab op h)

/-- C2: in the joined telemetry fetch, a failed transform lookup fails the
whole operation with that error regardless of the telemetry outcomes, and a
successful transform lookup yields a success whose telemetry comes from the
defaulting readers; a missing joint-state read defaults to the empty
sequence and a missing position read defaults to zero. -/
theorem c2_lookup_join_policy (resp : BackendResponses) :
    (∀ e, resp.transform_res = Except.error e →
        get_lookup_data resp = Except.error e) ∧
    (∀ t, resp.transform_res = Except.ok t →
        get_lookup_data resp =
          Except.ok
            { transform := t
              joint_states := get_joint_states resp.joints_res
              gantry_position := get_opc_current_position resp.gantry_res }) ∧
    get_joint_states none = [] ∧
    get_opc_current_position none = F64.zero := by
  refine ⟨?_, ?_, rfl, rfl⟩
  · intro e h
    simp [get_lookup_data, h]
  · intro t h
    simp [get_lookup_data, h]

/-- C2 witness: a concrete failing transform read fails the operation with
the same error while both telemetry reads are missing, and a concrete
successful transform read with both telemetry reads missing succeeds with the
empty joint sequence and the zero position. -/
theorem c2_lookup_join_policy_witness :
    get_lookup_data ⟨Except.error "GUI Failed to lookup transform with: e", none, none⟩ =
      Except.error "GUI Failed to lookup transform with: e" ∧
    get_lookup_data ⟨Except.ok stamped0, none, none⟩ =
      Except.ok { transform := stamped0, joint_states := [], gantry_position := F64.zero } :=
  ⟨(c2_lookup_join_policy ⟨Except.error "GUI Failed to lookup transform with: e", none, none⟩).1 _ rfl,
   (c2_lookup_join_policy ⟨Except.ok stamped0, none, none⟩).2.1 stamped0 rfl⟩

/-- C3: the command build checks the four mandatory selections in the fixed
order baseframe, faceplate, goal feature, tcp; the first missing one fails
the whole build with the error text naming that field, and no patch is
returned; with all four set the build succeeds. -/
theorem c3_validation_order (tab : RobotTab) :
    (tab.selected_baseframe = none →
        robot_command_tab_to_state tab = Except.error "Baseframe not selected") ∧
    (tab.selected_baseframe ≠ none → tab.selected_faceplate = none →
        robot_command_tab_to_state tab = Except.error "Faceplate not selected") ∧
    (tab.selected_baseframe ≠ none → tab.selected_faceplate ≠ none →
        tab.selected_goal_feature_id = none →
        robot_command_tab_to_state tab = Except.error "Goal feature not selected") ∧
    (tab.selected_baseframe ≠ none → tab.selected_faceplate ≠ none →
        tab.selected_goal_feature_id ≠ none → tab.selected_tcp = none →
        robot_command_tab_to_state tab = Except.error "Tcp not selected") ∧
    (tab.selected_baseframe ≠ none → tab.selected_faceplate ≠ none →
        tab.selected_goal_feature_id ≠ none → tab.selected_tcp ≠ none →
        ∃ st, robot_command_tab_to_state tab = Except.ok st) := by
  refine ⟨?_, ?_, ?_, ?_, ?_⟩
  · intro h1
    simp [robot_command_tab_to_state, h1]
  · intro h1 h2
    obtain ⟨b, hb⟩ := Option.ne_none_iff_exists'.mp h1
    simp [robot_command_tab_to_state, hb, h2]
  · intro h1 h2 h3
    obtain ⟨b, hb⟩ := Option.ne_none_iff_exists'.mp h1
    obtain ⟨f, hf⟩ := Option.ne_none_iff_exists'.mp h2
    simp [robot_command_tab_to_state, hb, hf, h3]
  · intro h1 h2 h3 h4
    obtain ⟨b, hb⟩ := Option.ne_none_iff_exists'.mp h1
    obtain ⟨f, hf⟩ := Option.ne_none_iff_exists'.mp h2
    obtain ⟨g, hg⟩ := Option.ne_none_iff_exists'.mp h3
    simp [robot_command_tab_to_state, hb, hf, hg, h4]
  · intro h1 h2 h3 h4
    obtain ⟨b, hb⟩ := Option.ne_none_iff_exists'.mp h1
    obtain ⟨f, hf⟩ := Option.ne_none_iff_exists'.mp h2
    obtain ⟨g, hg⟩ := Option.ne_none_iff_exists'.mp h3
    obtain ⟨t, ht⟩ := Option.ne_none_iff_exists'.mp h4
    simp only [robot_command_tab_to_state, hb, hf, hg, ht]
    exact ⟨_, rfl⟩

/-- C3 witness: with the baseframe missing the build fails naming the
baseframe, and with only the tcp missing it fails naming the tcp. -/
theorem c3_validation_order_witness :
    robot_command_tab_to_state robotTabNoBase = Except.error "Baseframe not selected" ∧
    robot_command_tab_to_state robotTabNoTcp = Except.error "Tcp not selected" :=
  ⟨(c3_validation_order robotTabNoBase).1 rfl,
   (c3_validation_order robotTabNoTcp).2.2.2.1 (by decide) (by decide) (by decide) rfl⟩

/-- C6: when the command build fails, the send-command operation performs no
spawn: the send slot and the whole tab are left exactly as they were, for
the spawn call itself and for the always-enabled button click that invokes
it. -/
theorem c6_build_failure_no_spawn (tab : RobotTab) (e : String)
    (h : robot_command_tab_to_state tab = Except.error e) :
    tab.spawn_robot_control_promise = (tab, false) ∧
    tab.send_command_click true = (tab, false) := by
  constructor
  · simp [RobotTab.spawn_robot_control_promise, h]
  · simp [RobotTab.send_command_click, RobotTab.spawn_robot_control_promise, h]

/-- C6 witness: clicking Send Command on the snapshot whose tcp is missing
changes nothing and spawns nothing. -/
theorem c6_build_failure_no_spawn_witness :
    robotTabNoTcp.spawn_robot_control_promise = (robotTabNoTcp, false) ∧
    robotTabNoTcp.send_command_click true = (robotTabNoTcp, false) :=
  c6_build_failure_no_spawn robotTabNoTcp "Tcp not selected" rfl

/-- C4 counterexample: after a successful fetch whose identifier set is just
the single key a, the RobotTab tcp selection ghost is not in the fetched set
and yet remains selected, contradicting the claim that every absent selected
identifier of the consuming tab is reset to unselected. -/
theorem c4_invalidation_counterexample :
    (robotTabGhostTcp.process_transforms_result [("a", stamped0)]).transform_keys.contains "ghost" = false ∧
    (robotTabGhostTcp.process_transforms_result [("a", stamped0)]).selected_tcp = some "ghost" := by
  constructor
  · decide
  · decide

/-- C4 (amended): after a successful fetch, the LookupTab parent and child
selections are kept exactly when present in the new identifier list and reset
otherwise; in the RobotTab only the goal-feature selection is filtered the
same way, while the tcp, faceplate and baseframe selections are left
unchanged whether or not they are present; both tabs store the sorted fetched
key list and no other selection field changes. -/
theorem c4_invalidation_amended (ltab : LookupTab) (rtab : RobotTab)
    (result : List (String × SPTransformStamped)) :
    (ltab.process_transforms_result result).transform_keys =
        sort_unstable (result.map Prod.fst) ∧
    (ltab.process_transforms_result result).parent =
        ltab.parent.filter
          (fun p => (sort_unstable (result.map Prod.fst)).contains p) ∧
    (ltab.process_transforms_result result).child =
        ltab.child.filter
          (fun c => (sort_unstable (result.map Prod.fst)).contains c) ∧
    (rtab.process_transforms_result result).transform_keys =
        sort_unstable (result.map Prod.fst) ∧
    (rtab.process_transforms_result result).selected_goal_feature_id =
        rtab.selected_goal_feature_id.filter
          (fun g => (sort_unstable (result.map Prod.fst)).contains g) ∧
    (rtab.process_transforms_result result).selected_tcp = rtab.selected_tcp ∧
    (rtab.process_transforms_result result).selected_faceplate =
        rtab.selected_faceplate ∧
    (rtab.process_transforms_result result).selected_baseframe =
        rtab.selected_baseframe := by
  refine ⟨rfl, ?_, ?_, rfl, ?_, rfl, rfl, rfl⟩
  · rcases hp : ltab.parent with _ | p <;>
      simp [LookupTab.process_transforms_result, Option.filter, hp]
  · rcases hc : ltab.child with _ | c <;>
      simp [LookupTab.process_transforms_result, Option.filter, hc]
  · rcases hg : rtab.selected_goal_feature_id with _ | g <;>
      simp [RobotTab.process_transforms_result, Option.filter, hg]

/-- C5: for every fetch result whose key set is duplicate-free (the fetched
mapping is keyed by identifier), the stored transform_keys list of either tab
is sorted ascending in the byte order and contains no duplicate strings. -/
theorem c5_transform_keys_sorted_nodup (ltab : LookupTab) (rtab : RobotTab)
    (result : List (String × SPTransformStamped))
    (h : (result.map Prod.fst).Nodup) :
    List.Sorted strLe (ltab.process_transforms_result result).transform_keys ∧
    (ltab.process_transforms_result result).transform_keys.Nodup ∧
    List.Sorted strLe (rtab.process_transforms_result result).transform_keys ∧
    (rtab.process_transforms_result result).transform_keys.Nodup := by
  refine ⟨?_, ?_, ?_, ?_⟩ <;>
    first
      | exact sort_unstable_sorted (result.map Prod.fst)
      | exact sort_unstable_nodup h

/-- C5 witness: a concrete two-key fetch result with distinct keys yields a
sorted duplicate-free displayed list in both tabs. -/
theorem c5_transform_keys_sorted_nodup_witness :
    (([("b", stamped0), ("a", stamped0)].map
        (Prod.fst (α := String) (β := SPTransformStamped))).Nodup) ∧
    (List.Sorted strLe
        (LookupTab.new.process_transforms_result
          [("b", stamped0), ("a", stamped0)]).transform_keys ∧
      (LookupTab.new.process_transforms_result
          [("b", stamped0), ("a", stamped0)]).transform_keys.Nodup ∧
      List.Sorted strLe
        (RobotTab.new.process_transforms_result
          [("b", stamped0), ("a", stamped0)]).transform_keys ∧
      (RobotTab.new.process_transforms_result
          [("b", stamped0), ("a", stamped0)]).transform_keys.Nodup) :=
  ⟨by decide,
   c5_transform_keys_sorted_nodup LookupTab.new RobotTab.new
     [("b", stamped0), ("a", stamped0)] (by decide)⟩

/-- C7 counterexample: the global acceleration scaling slider is a scalar UI
field of the snapshot (here holding a set value), yet the successfully built
patch contains no key for it: the full key list of the patch is the
twenty-two command keys, none of which is r1_global_acceleration_scaling.
This contradicts the claim that every scalar, boolean and array UI field maps
to exactly one patch key. -/
theorem c7_patch_mapping_counterexample :
    robotTabReady.global_acceleration_scaling = ⟨2⟩ ∧
    (robot_command_tab_to_state robotTabReady).map
        (fun st => st.get "r1_global_acceleration_scaling") = Except.ok none ∧
    (robot_command_tab_to_state robotTabReady).map
        (fun st => st.entries.map Prod.fst) = Except.ok (commandPatchKeys "r1") := by
  refine ⟨rfl, ?_, ?_⟩
  · rfl
  · rfl

/-- C7 (amended): on every snapshot with the four mandatory selections set,
the build succeeds and produces exactly the spec mapping table: one entry per
serialized field under the key robot id followed by the field name (the
global scaling sliders, the manual payload components and the set-manual
toggles are not serialized), with the three arrays as six-element sequences
in declared order, the enumerated fields through their fixed string tables,
and no key repeated. -/
theorem c7_patch_mapping_amended (tab : RobotTab)
    (base face goal tcp : String)
    (h1 : tab.selected_baseframe = some base)
    (h2 : tab.selected_faceplate = some face)
    (h3 : tab.selected_goal_feature_id = some goal)
    (h4 : tab.selected_tcp = some tcp) :
    robot_command_tab_to_state tab =
        Except.ok ⟨specCommandPatch tab base face goal tcp⟩ ∧
    (specCommandPatch tab base face goal tcp).map Prod.fst =
        commandPatchKeys tab.robot_id_input ∧
    (commandPatchKeys tab.robot_id_input).Nodup := by
  refine ⟨?_, rfl, commandPatchKeys_nodup tab.robot_id_input⟩
  simp only [robot_command_tab_to_state, h1, h2, h3, h4]
  simp [State.add, State.new, specCommandPatch]

/-- C7 witness: the fully selected snapshot builds exactly its spec mapping
table, whose key list repeats no key. -/
theorem c7_patch_mapping_witness :
    robot_command_tab_to_state robotTabReady =
        Except.ok ⟨specCommandPatch robotTabReady "base_link" "tool0" "goal" "tcp"⟩ ∧
    (specCommandPatch robotTabReady "base_link" "tool0" "goal" "tcp").map Prod.fst =
        commandPatchKeys robotTabReady.robot_id_input ∧
    (commandPatchKeys robotTabReady.robot_id_input).Nodup :=
  c7_patch_mapping_amended robotTabReady "base_link" "tool0" "goal" "tcp"
    rfl rfl rfl rfl

/-- The synthetic joint-name map pairs position i with the name j followed
by i and the joint value at i, in array order. -/
theorem vec_to_joint_map_get? (js : List F64) (i : Nat) :
    (vec_to_joint_map js).get? i =
      (js.get? i).map (fun v => ("j" ++ toString i, v)) := by
  simp only [vec_to_joint_map, List.get?_eq_getElem?, List.getElem?_map,
    List.getElem?_enum]
  cases js[i]? <;> rfl

/-- C8: the export document built from a successful lookup has exactly the
fixed top-level shape (child frame id, parent frame id, transform, metadata
with tcp id, preferred joint configuration, enable and active flags, and
gantry); the metadata tcp id equals the selected child frame; the joint map
sends the name j followed by each index to that joint value in array order;
and in the world-to-tool0 scenario the exported parent is world, the child
is tool0, and the metadata tcp id is tool0. -/
theorem c8_export_document_shape (tab : LookupTab) (data : LookupData)
    (js : List F64) (i : Nat) :
    (tab.mk_lookup_output data).toJson =
      Json.obj
        [("child_frame_id", Json.str (tab.child.getD "")),
         ("parent_frame_id", Json.str (tab.parent.getD "")),
         ("transform", data.transform.transform.toJson),
         ("metadata",
            Json.obj
              [("tcp_id", Json.str (tab.child.getD "")),
               ("preferred_joint_configuration",
                  Json.obj ((vec_to_joint_map data.joint_states).map
                    (fun p => (p.fst, Json.num p.snd)))),
               ("enable_transform", Json.bool true),
               ("active_transform", Json.bool false),
               ("gantry", Json.num data.gantry_position)])] ∧
    (tab.mk_lookup_output data).metadata.tcp_id = tab.child.getD "" ∧
    (vec_to_joint_map js).get? i =
        (js.get? i).map (fun v => ("j" ++ toString i, v)) ∧
    (lookupTabScenario.mk_lookup_output data).parent_frame_id = "world" ∧
    (lookupTabScenario.mk_lookup_output data).child_frame_id = "tool0" ∧
    (lookupTabScenario.mk_lookup_output data).metadata.tcp_id = "tool0" :=
  ⟨rfl, rfl, vec_to_joint_map_get? js i, rfl, rfl, rfl⟩

/-- C9: re-parsing the serialized export document recovers the parent frame
id, the child frame id, and the transform with every translation and
rotation component bit-for-bit identical. -/
theorem c9_export_roundtrip (o : JsonOutputWithMetadata) :
    parseLookupExport o.toJson =
      some (o.parent_frame_id, o.child_frame_id, o.transform) :=
  rfl

/-- C1 counterexample: with a send already in flight (the slot holds an
empty captured patch) and a valid snapshot, a Send Command click spawns a
new computation anyway and replaces the slot content (the captured patch
goes from zero to twenty-two entries), contradicting the claim that a spawn
attempt on a Pending slot is rejected and the in-flight computation is
unaffected. -/
theorem c1_single_flight_counterexample :
    robotTabPendingSend.robot_control_promise.isSome = true ∧
    (robotTabPendingSend.send_command_click true).snd = true ∧
    (robotTabPendingSend.robot_control_promise.map
        (fun p => p.state.entries.length)) = some 0 ∧
    ((robotTabPendingSend.send_command_click true).fst.robot_control_promise.map
        (fun p => p.state.entries.length)) = some 22 := by
  refine ⟨rfl, ?_, rfl, ?_⟩
  · rfl
  · rfl

/-- C1 (amended): the transform-fetch slots of both tabs and the lookup slot
reject a spawn attempt while Pending, leaving the tab untouched; the
send-command slot does not: whenever the build succeeds, a click spawns a
new computation and overwrites the slot, regardless of its current state. -/
theorem c1_single_flight_amended :
    (∀ (tab : LookupTab) (clicked : Bool),
        tab.get_all_transforms_promise.isSome = true →
        tab.fetch_frame PollOutcome.pending clicked = (tab, false)) ∧
    (∀ (tab : RobotTab) (clicked : Bool),
        tab.get_all_transforms_promise.isSome = true →
        tab.fetch_frame PollOutcome.pending clicked = (tab, false)) ∧
    (∀ (tab : LookupTab) (clicked : Bool),
        tab.lookup_promise.isSome = true →
        tab.lookup_click clicked = (tab, false)) ∧
    (∀ (tab : RobotTab) (st : State),
        robot_command_tab_to_state tab = Except.ok st →
        tab.send_command_click true =
          ({ tab with robot_control_promise := some { state := st } }, true)) := by
  refine ⟨?_, ?_, ?_, ?_⟩
  · intro tab clicked h
    rcases hp : tab.get_all_transforms_promise with _ | u
    · simp [hp] at h
    · simp [LookupTab.fetch_frame, hp]
  · intro tab clicked h
    rcases hp : tab.get_all_transforms_promise with _ | u
    · simp [hp] at h
    · simp [RobotTab.fetch_frame, hp]
  · intro tab clicked h
    simp [LookupTab.lookup_click, h]
  · intro tab st h
    simp [RobotTab.send_command_click, RobotTab.spawn_robot_control_promise, h]

/-- C1 witness: a pending fetch in either tab and a pending lookup each
reject a click unchanged, and a valid snapshot click installs the built
patch in the send slot. -/
theorem c1_single_flight_witness :
    lookupTabPendingFetch.fetch_frame PollOutcome.pending true =
        (lookupTabPendingFetch, false) ∧
    robotTabPendingFetch.fetch_frame PollOutcome.pending true =
        (robotTabPendingFetch, false) ∧
    lookupTabPending.lookup_click true = (lookupTabPending, false) ∧
    robotTabReady.send_command_click true =
        ({ robotTabReady with
            robot_control_promise := some { state := robotTabReadyPatch } }, true) :=
  ⟨c1_single_flight_amended.1 lookupTabPendingFetch true rfl,
   c1_single_flight_amended.2.1 robotTabPendingFetch true rfl,
   c1_single_flight_amended.2.2.1 lookupTabPending true rfl,
   c1_single_flight_amended.2.2.2 robotTabReady robotTabReadyPatch rfl⟩

/-- C10: after any sequence of lookup spawn and poll calls from the initial
LookupTab state, at most one of the lookup output and the lookup error text
is present: spawning clears both before installing the promise, and
consuming a ready result sets exactly one of them. -/
theorem c10_output_error_exclusive (ops : List LookupOp) :
    (LookupTab.new.run_ops ops).lookup_output = none ∨
    (LookupTab.new.run_ops ops).lookup_error = none :=
  (lookup_wf_run LookupTab.new ops ⟨fun h => by simp [LookupTab.new] at h,
    Or.inl rfl⟩).2

end MicroSpGui
